import Mathlib

/-!
Verification of the wbs request/extract/persist pipeline scripts.

Shallow embedding of the Python sources:
  * `src/erp_Logistics.py`, `src/erp_Payment.py` — ByIndex field extractors
    and single-record overwrite persistence;
  * `src/erp_association.py` — All-records field extractor and
    append-dedup persistence (`save_data`);
  * `src/erp_save.py`, `src/oms_status.py`, `src/erp_edit.py` — dual-endpoint
    request executors;
  * `src/oms_status.py` — `extract_fulfillment_ids`.

JSON values are modelled by the inductive `JsonVal` (numbers as `Int`;
no claim involves fractional numbers).  Python dynamic behaviour that the
scripts rely on (truthiness, `str()` coercion, `in` on containers,
iteration, slicing, set insertion with hashability) is modelled by the
`py*` helpers below, faithful to CPython semantics on the value shapes
the scripts can meet.  Fallible Python code is embedded in
`Except String`, the error string standing for the exception class;
an uncaught exception is an `Except.error` result.
-/

/-- A decoded JSON value (the result of `response.json()` / `json.loads`). -/
inductive JsonVal where
  | null : JsonVal
  | bool (b : Bool) : JsonVal
  | num (n : Int) : JsonVal
  | str (s : String) : JsonVal
  | arr (xs : List JsonVal) : JsonVal
  | obj (kvs : List (String × JsonVal)) : JsonVal
deriving Repr

/-- Python `repr(v)`.  Escaping of quotes/backslashes inside string reprs is
not modelled (no claim depends on the repr of container values). -/
def pyRepr : JsonVal → String
  | .null => "None"
  | .bool true => "True"
  | .bool false => "False"
  | .num n => toString n
  | .str s => "'" ++ s ++ "'"
  | .arr xs => "[" ++ String.intercalate ", " (xs.attach.map (fun x => pyRepr x.1)) ++ "]"
  | .obj kvs =>
      "\x7b" ++
        String.intercalate ", "
          (kvs.attach.map (fun p => "'" ++ p.1.1 ++ "': " ++ pyRepr p.1.2)) ++
      "\x7d"
decreasing_by
  · simp_wf; have := List.sizeOf_lt_of_mem x.2; omega
  · simp_wf
    have h := List.sizeOf_lt_of_mem p.2
    obtain ⟨⟨k, v⟩, hm⟩ := p
    simp only [Prod.mk.sizeOf_spec] at h ⊢
    omega

/-- Python `str(v)` for a JSON value: identity on strings, `repr` otherwise
(`str(None) = "None"`, `str(True) = "True"`, `str(3) = "3"`). -/
def pyStr : JsonVal → String
  | .null => "None"
  | .bool true => "True"
  | .bool false => "False"
  | .num n => toString n
  | .str s => s
  | .arr xs => pyRepr (.arr xs)
  | .obj kvs => pyRepr (.obj kvs)

/-- Python truthiness: `None`, `False`, `0`, `""`, `[]`, `{}` are falsy. -/
def pyTruthy : JsonVal → Bool
  | .null => false
  | .bool b => b
  | .num n => n != 0
  | .str s => !s.isEmpty
  | .arr xs => !xs.isEmpty
  | .obj kvs => !kvs.isEmpty

/-- Python `d.get(k, default)` on a dict (first binding wins; the scripts'
dicts come from `json.loads`, which has no duplicate keys). -/
def dictGetD (kvs : List (String × JsonVal)) (k : String) (d : JsonVal) : JsonVal :=
  match kvs.find? (fun kv => kv.1 = k) with
  | some kv => kv.2
  | none => d

/-- Python `d[k]` lookup on a dict (`k` a string key). -/
def dictGet? (kvs : List (String × JsonVal)) (k : String) : Option JsonVal :=
  (kvs.find? (fun kv => kv.1 = k)).map (fun kv => kv.2)

/-- Python `==` restricted to hashable (primitive) JSON values, including the
numeric cross-equality `True == 1`, `False == 0`.  Containers compare unequal
here; the model only uses this where CPython would already have rejected a
container (set insertion) or where only a string can match (`in` with a
string needle). -/
def pyEqPrim : JsonVal → JsonVal → Bool
  | .null, .null => true
  | .bool a, .bool b => a == b
  | .bool a, .num n => n == (if a then (1 : Int) else 0)
  | .num n, .bool a => n == (if a then (1 : Int) else 0)
  | .num a, .num b => a == b
  | .str a, .str b => a == b
  | _, _ => false

/-- Whether a value may enter a Python `set` (is hashable). -/
def pyHashable : JsonVal → Bool
  | .arr _ => false
  | .obj _ => false
  | _ => true

/-- Substring test used by Python `needle in haystack` on strings.  All
needles in the sources are non-empty literals. -/
def pyInStr (needle hay : String) : Bool :=
  (hay.splitOn needle).length > 1

/-- Python `key in v` for a string `key`: key test on dicts, substring test
on strings, `==`-membership on lists; `TypeError` on non-containers. -/
def pyContains (key : String) : JsonVal → Except String Bool
  | .obj kvs => .ok (kvs.any (fun kv => kv.1 = key))
  | .str s => .ok (pyInStr key s)
  | .arr xs => .ok (xs.any (fun x => pyEqPrim x (.str key)))
  | _ => .error "TypeError"

/-- Python `for x in v`: lists yield elements, strings yield one-character
strings, dicts yield their keys; `TypeError` otherwise. -/
def pyIter : JsonVal → Except String (List JsonVal)
  | .arr xs => .ok xs
  | .str s => .ok (s.data.map (fun c => .str (String.singleton c)))
  | .obj kvs => .ok (kvs.map (fun kv => .str kv.1))
  | _ => .error "TypeError"

/-- Python `v[:10]`: prefix of a string or list; `TypeError` otherwise. -/
def pySlice10 : JsonVal → Except String JsonVal
  | .str s => .ok (.str (s.take 10))
  | .arr xs => .ok (.arr (xs.take 10))
  | _ => .error "TypeError"

/-! ## ByIndex extractors: `erp_Logistics.extract_fields`, `erp_Payment.extract_fields` -/

/-- Record built by `erp_Logistics.extract_fields` (fields `item`, `name`,
both `str()`-coerced). -/
structure LogiRecord where
  item : String
  name : String
deriving DecidableEq, Repr

/-- Record built by `erp_Payment.extract_fields` (fields `id`, `name`,
both `str()`-coerced). -/
structure PayRecord where
  id : String
  name : String
deriving DecidableEq, Repr

/-- One list element projected by `erp_Logistics.extract_fields`:
`{'item': str(item.get('item','')), 'name': str(item.get('name',''))}`. -/
def projLogi (ikvs : List (String × JsonVal)) : LogiRecord :=
  ⟨pyStr (dictGetD ikvs "item" (.str "")), pyStr (dictGetD ikvs "name" (.str ""))⟩

/-- One list element projected by `erp_Payment.extract_fields`:
`{'id': str(item.get('id','')), 'name': str(item.get('name',''))}`. -/
def projPay (ikvs : List (String × JsonVal)) : PayRecord :=
  ⟨pyStr (dictGetD ikvs "id" (.str "")), pyStr (dictGetD ikvs "name" (.str ""))⟩

/-- The record list built by the ByIndex extractors' loop: mapping-typed
elements are projected, every other element is skipped (`continue`). -/
def builtRecords (proj : List (String × JsonVal) → α) (items : List JsonVal) : List α :=
  items.filterMap (fun it =>
    match it with
    | .obj ikvs => some (proj ikvs)
    | _ => none)

/-- The ByIndex selection `results[index-1] if (0 < index <= len(results)) else None`
(`index` is a Python int). -/
def byIndexSelect (results : List α) (index : Int) : Option α :=
  if 0 < index ∧ index ≤ results.length then results.get? (index - 1).toNat else none

/-- Body of the `try` block of `erp_Logistics.extract_fields` /
`erp_Payment.extract_fields`, before the blanket `except` handler:

* a `str` body is passed through `json.loads` (modelled by the `loads`
  parameter; a parse failure is a raised `ValueError`);
* a non-dict body raises `ValueError` (响应数据不是有效的字典格式);
* a present, non-list `'data'` value raises `ValueError` (非列表格式);
* an absent `'data'` key falls through the `if`, returning `None`;
* otherwise mapping-typed elements are projected and the ByIndex selection
  is applied. -/
def extractByIndexInner (proj : List (String × JsonVal) → α)
    (loads : String → Except String JsonVal)
    (response_data : JsonVal) (index : Int) : Except String (Option α) := do
  let rd ← match response_data with
    | .str s => loads s
    | v => pure v
  match rd with
  | .obj kvs =>
    match dictGet? kvs "data" with
    | none => pure none
    | some (.arr items) => pure (byIndexSelect (builtRecords proj items) index)
    | some _ => .error "ValueError: data is not a list"
  | _ => .error "ValueError: response is not a dict"

/-- Public `extract_fields` of `erp_Logistics.py` / `erp_Payment.py`: the
whole body is wrapped in `try ... except Exception: return None`, so every
raised error is swallowed and surfaces as `None`. -/
def extractByIndex (proj : List (String × JsonVal) → α)
    (loads : String → Except String JsonVal)
    (response_data : JsonVal) (index : Int) : Option α :=
  match extractByIndexInner proj loads response_data index with
  | .ok v => v
  | .error _ => none

/-- `erp_Logistics.extract_fields` (inner try-block). -/
def extract_fieldsLogiInner := @extractByIndexInner LogiRecord projLogi

/-- `erp_Logistics.extract_fields` (public). -/
def extract_fieldsLogi := @extractByIndex LogiRecord projLogi

/-- `erp_Payment.extract_fields` (inner try-block). -/
def extract_fieldsPayInner := @extractByIndexInner PayRecord projPay

/-- `erp_Payment.extract_fields` (public). -/
def extract_fieldsPay := @extractByIndex PayRecord projPay

/-! ## `erp_association.extract_fields` and `save_data` -/

/-- Python `v[key]` subscripting with a string key: dict lookup
(`KeyError` when absent), `TypeError` on anything else. -/
def pySubscript (key : String) : JsonVal → Except String JsonVal
  | .obj kvs =>
    match dictGet? kvs key with
    | some v => .ok v
    | none => .error "KeyError"
  | _ => .error "TypeError"

/-- Record built by `erp_association.extract_fields`.  Unlike the ByIndex
extractors there is no `str()` coercion: values are stored as read, so the
fields keep type `JsonVal`.  Field order follows the source's dict literal. -/
structure AssocRecord where
  id : JsonVal
  code : JsonVal
  customerExpectDeliveryDate : JsonVal
  platform : JsonVal
  fulfillmentOrderCreatedTime : JsonVal
deriving Repr

/-- One loop iteration of `erp_association.extract_fields`:
`raw_date = item.get('customerExpectDeliveryDate', '')`,
`formatted_date = raw_date[:10] if raw_date else ''`, then the record dict.
A non-dict `item` raises `AttributeError` at `item.get` (the function has no
`try`, so the error propagates). -/
def assocRecordOf (item : JsonVal) : Except String AssocRecord :=
  match item with
  | .obj ikvs => do
    let raw_date := dictGetD ikvs "customerExpectDeliveryDate" (.str "")
    let formatted_date ← if pyTruthy raw_date then pySlice10 raw_date else pure (.str "")
    pure ⟨dictGetD ikvs "id" (.str ""), dictGetD ikvs "code" (.str ""),
          formatted_date, dictGetD ikvs "platform" (.str ""),
          dictGetD ikvs "fulfillmentOrderCreatedTime" (.str "")⟩
  | _ => .error "AttributeError"

/-- `erp_association.extract_fields`: `if 'data' in response_data:` then
`for item in response_data['data']` building records; no shape validation,
no exception handler, so dynamic type errors propagate. -/
def extract_fieldsAssoc (response_data : JsonVal) : Except String (List AssocRecord) := do
  let b ← pyContains "data" response_data
  if b then
    let dv ← pySubscript "data" response_data
    let items ← pyIter dv
    items.mapM assocRecordOf
  else
    pure []

/-- The pipe-delimited line written by `erp_association.save_data` for one
record: `f"{r['id']}|{r['code']}|{r['platform']}|{r['customerExpectDeliveryDate']}|{r['fulfillmentOrderCreatedTime']}"`
(the f-string applies `str()` to each value). -/
def serializeAssoc (r : AssocRecord) : String :=
  pyStr r.id ++ "|" ++ pyStr r.code ++ "|" ++ pyStr r.platform ++ "|" ++
    pyStr r.customerExpectDeliveryDate ++ "|" ++ pyStr r.fulfillmentOrderCreatedTime

/-- A state file: `none` when the file does not exist, `some ls` when its
content is exactly the lines `ls`, each terminated by a newline (which is
the only content the scripts ever write). -/
abbrev FileState := Option (List String)

/-- `erp_association.save_data`: serialize the records; read the existing
file (if any) into a set of lines; then open the file in `'w'` mode —
truncating it — and write only those serialized lines not already in the
set.  The result is the new file content. -/
def save_dataAssoc (records : List AssocRecord) (fs : FileState) : List String :=
  let lines := records.map serializeAssoc
  let existing : List String := match fs with
    | none => []
    | some ls => ls
  lines.filter (fun l => !existing.contains l)

/-- The persistence step of `erp_association.main`:
`if extracted_data: save_data(extracted_data)` — an empty record list
(falsy) skips `save_data` entirely, leaving the file state untouched. -/
def assocPersist (records : List AssocRecord) (fs : FileState) : FileState :=
  if records.isEmpty then fs else some (save_dataAssoc records fs)

/-- `erp_Logistics.save_data` (identical in `erp_Payment.py` up to field
names): if the record is present (a non-empty dict is truthy) the file is
overwritten with the single line `f"{record['item']}|{record['name']}"`,
and `True` is returned; otherwise nothing is written and `False` is
returned. -/
def save_dataLogi (record : Option LogiRecord) (fs : FileState) : FileState × Bool :=
  match record with
  | some r => (some [r.item ++ "|" ++ r.name], true)
  | none => (fs, false)

/-! ## `oms_status.extract_fulfillment_ids` -/

/-- Python `ids.add(v)` on a set, modelled as a duplicate-free list in
insertion order: unhashable values (lists, dicts) raise `TypeError`;
a value `==`-equal to a present element is not inserted again.
(CPython's set iteration order is hash-dependent; the model fixes
first-insertion order, which the theorems do not rely on.) -/
def setAdd (ids : List JsonVal) (v : JsonVal) : Except String (List JsonVal) :=
  if pyHashable v then
    .ok (if ids.any (fun x => pyEqPrim x v) then ids else ids ++ [v])
  else
    .error "TypeError: unhashable"

/-- Innermost loop body of `extract_fulfillment_ids`:
`if "fulfillmentOrderId" in goods: ids.add(goods["fulfillmentOrderId"])`. -/
def addGoods (ids : List JsonVal) (goods : JsonVal) : Except String (List JsonVal) := do
  let b ← pyContains "fulfillmentOrderId" goods
  if b then
    let v ← pySubscript "fulfillmentOrderId" goods
    setAdd ids v
  else
    pure ids

/-- Middle loop body: `for goods in item.get("reissueGoodsInfoList", [])`
(`item.get` raises `AttributeError` on a non-dict `item`). -/
def addItem (ids : List JsonVal) (item : JsonVal) : Except String (List JsonVal) := do
  let goodsList ← match item with
    | .obj ikvs => pyIter (dictGetD ikvs "reissueGoodsInfoList" (.arr []))
    | _ => .error "AttributeError"
  goodsList.foldlM addGoods ids

/-- The iterable of `for item in order.get("afterSaleItemList", [])`
(`order.get` raises `AttributeError` on a non-dict `order`). -/
def orderItems (order : JsonVal) : Except String (List JsonVal) :=
  match order with
  | .obj okvs => pyIter (dictGetD okvs "afterSaleItemList" (.arr []))
  | _ => .error "AttributeError"

/-- Outer loop body of `extract_fulfillment_ids` for one `order`. -/
def addOrder (ids : List JsonVal) (order : JsonVal) : Except String (List JsonVal) := do
  let b ← pyContains "fulfillmentOrderId" order
  let ids ← if b then do
      let v ← pySubscript "fulfillmentOrderId" order
      setAdd ids v
    else
      pure ids
  let items ← orderItems order
  items.foldlM addItem ids

/-- `oms_status.extract_fulfillment_ids`: the iterable of
`for order in data.get("data", [])` (`data.get` raises `AttributeError`
on a non-dict body); the collected `fulfillmentOrderId` values follow in
`extract_fulfillment_ids` below. -/
def topOrders (data : JsonVal) : Except String (List JsonVal) :=
  match data with
  | .obj kvs => pyIter (dictGetD kvs "data" (.arr []))
  | _ => .error "AttributeError"

/-- Body of `oms_status.extract_fulfillment_ids`, continued: iterate the
orders, then `return list(ids)`. -/
def extract_fulfillment_ids (data : JsonVal) : Except String (List JsonVal) := do
  let orders ← topOrders data
  orders.foldlM addOrder []

/-! ## Request executors -/

/-- One HTTP request as actually issued: URL, serialized body, headers,
timeout.  (`json.dumps` on an unmutated dict is deterministic, so the body
is modelled as the serialized string.) -/
structure Req where
  url : String
  body : String
  headers : List (String × String)
  timeout : Nat
deriving DecidableEq, Repr

/-- A delivered HTTP response: status code and decoded body. -/
structure HttpResp where
  status : Nat
  body : JsonVal
deriving Repr

/-- The network: `none` models a transport failure
(`requests.exceptions.RequestException` raised by `requests.post`). -/
def Net := Req → Option HttpResp

/-- Outcome of an executor run: a returned value or an uncaught/generic
exception.  `ok none` is Python's implicit `return None`. -/
inductive ExecOutcome where
  | ok (v : Option JsonVal) : ExecOutcome
  | error (msg : String) : ExecOutcome
deriving Repr

/-- `ApiConfig` of `erp_save.py`: the fallback is optional and stored as a
base URL; the payload is modelled post-serialization. -/
structure SaveConfig where
  primary_url : String
  fallback_base_url : Option String
  payloadData : String
  headers : List (String × String)
  timeout : Nat

/-- `ApiConfig.get_fallback_url` of `erp_save.py`: appends `":8081"` to the
stored base URL. -/
def get_fallback_url (c : SaveConfig) : Option String :=
  c.fallback_base_url.map (fun base => base ++ ":8081")

/-- The primary request issued by `erp_save.ApiClient.execute_request`. -/
def savePrimaryReq (c : SaveConfig) : Req :=
  ⟨c.primary_url, c.payloadData, c.headers, c.timeout⟩

/-- `erp_save.ApiClient.execute_request`, returning the list of requests
issued (in order) together with the outcome:

* transport failure anywhere is caught by the blanket
  `except requests.exceptions.RequestException` and re-raised as a generic
  `Exception` — the fallback is **not** tried on a transport error;
* primary status `200`: return the decoded body, fallback untouched;
* primary status `502`, or no fallback configured: `raise_for_status()`
  (error for status ≥ 400; for a status in 300–399 it returns normally and
  the function falls off the end, returning `None`);
* any other non-200 primary status with a fallback configured: issue the
  identical envelope against the fallback URL and `raise_for_status()` on
  its response. -/
def execute_requestSave (net : Net) (c : SaveConfig) : List Req × ExecOutcome :=
  let r1 := savePrimaryReq c
  match net r1 with
  | none => ([r1], .error "Exception: 请求失败 (RequestException)")
  | some resp =>
    if resp.status = 200 then
      ([r1], .ok (some resp.body))
    else
      match c.fallback_base_url with
      | none =>
        if 400 ≤ resp.status then ([r1], .error "HTTPError")
        else ([r1], .ok none)
      | some base =>
        if resp.status = 502 then
          if 400 ≤ resp.status then ([r1], .error "HTTPError")
          else ([r1], .ok none)
        else
          let r2 : Req := ⟨base ++ ":8081", c.payloadData, c.headers, c.timeout⟩
          match net r2 with
          | none => ([r1, r2], .error "Exception: 请求失败 (RequestException)")
          | some fresp =>
            if 400 ≤ fresp.status then ([r1, r2], .error "HTTPError")
            else ([r1, r2], .ok (some fresp.body))

/-- `ApiConfig` of `oms_status.py`: both URLs mandatory. -/
structure StatusConfig where
  primary_url : String
  fallback_url : String
  payloadData : String
  headers : List (String × String)
  timeout : Nat

/-- The primary request issued by `oms_status.ApiClient.execute_request`. -/
def statusPrimaryReq (c : StatusConfig) : Req :=
  ⟨c.primary_url, c.payloadData, c.headers, c.timeout⟩

/-- `oms_status.ApiClient.execute_request`: post to the primary; if the
status is exactly `502`, post the identical envelope to the fallback and
continue with that response; then `raise_for_status()` and return the
decoded body.  A transport failure on either post is caught and re-raised
as a generic `Exception`.  (The session's `HTTPAdapter` retry policy is a
transport-level detail below `net`.) -/
def execute_requestStatus (net : Net) (c : StatusConfig) : List Req × ExecOutcome :=
  let r1 := statusPrimaryReq c
  match net r1 with
  | none => ([r1], .error "Exception: API请求失败 (RequestException)")
  | some resp =>
    if resp.status = 502 then
      let r2 : Req := ⟨c.fallback_url, c.payloadData, c.headers, c.timeout⟩
      match net r2 with
      | none => ([r1, r2], .error "Exception: API请求失败 (RequestException)")
      | some fresp =>
        if 400 ≤ fresp.status then ([r1, r2], .error "HTTPError")
        else ([r1, r2], .ok (some fresp.body))
    else
      if 400 ≤ resp.status then ([r1], .error "HTTPError")
      else ([r1], .ok (some resp.body))

/-- `erp_edit.send_request`: posts the serialized payload with a 30-second
timeout and calls `raise_for_status()`; both transport failures and
non-2xx statuses surface as `requests.exceptions.RequestException`
(re-raised by the function's own handler). -/
def send_requestEdit (net : Net) (url : String) (headers : List (String × String))
    (payload : String) : Except String Unit :=
  match net ⟨url, payload, headers, 30⟩ with
  | none => .error "RequestException"
  | some resp => if 400 ≤ resp.status then .error "HTTPError" else .ok ()

/-- The failover step of `erp_edit.main`: try `send_request` on the main
URL; on `RequestException` retry once with the backup URL and the same
`headers` and `payload_data` objects (nothing mutates them in between). -/
def editFailover (net : Net) (mainUrl backupUrl : String)
    (headers : List (String × String)) (payload : String) :
    List Req × Except String Unit :=
  let r1 : Req := ⟨mainUrl, payload, headers, 30⟩
  match send_requestEdit net mainUrl headers payload with
  | .ok _ => ([r1], .ok ())
  | .error _ =>
    let r2 : Req := ⟨backupUrl, payload, headers, 30⟩
    ([r1, r2], send_requestEdit net backupUrl headers payload)

/-! ## Theorems -/

/-- Claim C1 (code bug).  `erp_association.save_data` is not idempotent:
it opens the state file in `'w'` (truncate) mode but writes only the lines
*not* already present, so a second run with the same record set erases the
file instead of leaving it with one `9|X|...` line.  This theorem evaluates
the embedded `save_data` at the failing input: the first run on a missing
file writes the single line `9|X|||`, and the second run — the existing
line now being skipped by the dedup check while `'w'` truncates — leaves
the file empty. -/
theorem save_data_rerun_clears_file :
    save_dataAssoc [⟨.str "9", .str "X", .str "", .str "", .str ""⟩] none = ["9|X|||"] ∧
    save_dataAssoc [⟨.str "9", .str "X", .str "", .str "", .str ""⟩] (some ["9|X|||"]) = [] :=
  ⟨rfl, rfl⟩

/-- Claim C2 (code bug).  `erp_association.save_data` does not write back
the union of the existing lines and the new lines: opening with `'w'`
truncates the file and the loop writes only the new, not-yet-present lines,
so every pre-existing line is lost.  Concretely, saving the record
`id=9, code=X` over a file holding the line `7|Y|||` leaves the file with
only `9|X|||` — the pre-existing `7|Y|||` is gone. -/
theorem save_data_drops_preexisting_line :
    save_dataAssoc [⟨.str "9", .str "X", .str "", .str "", .str ""⟩] (some ["7|Y|||"]) =
      ["9|X|||"] ∧
    "7|Y|||" ∉ save_dataAssoc [⟨.str "9", .str "X", .str "", .str "", .str ""⟩]
      (some ["7|Y|||"]) :=
  ⟨rfl, by decide⟩

/-- Claim C3, counterexample.  The Payment extractor coerces with Python
`str()` after `item.get('id', '')`; a JSON `null` value is present, so the
default is not used and `str(None)` yields the text `"None"`, not the empty
string the claim requires. -/
theorem null_field_extracts_to_None_text :
    extract_fieldsPay (fun _ => .error "ValueError")
        (.obj [("data", .arr [.obj [("id", .null), ("name", .str "A")]])]) 1 =
      some ⟨"None", "A"⟩ ∧
    ("None" : String) ≠ "" :=
  ⟨rfl, by decide⟩

/-- Claim C3, amended.  In the ByIndex extractors (`erp_Payment`,
`erp_Logistics`) every named field is read with `get(key, '')` and coerced
with Python `str()`: an absent key yields `""`, but a `null` value yields
the text `"None"` (and a number its decimal form).  The association
extractor (`erp_association`) performs no coercion at all: the field value
is stored as read, with `""` only as the absent-key default. -/
theorem field_coercion_via_pyStr (loads : String → Except String JsonVal)
    (v name : JsonVal) :
    extract_fieldsPay loads (.obj [("data", .arr [.obj [("id", v), ("name", name)]])]) 1 =
      some ⟨pyStr v, pyStr name⟩ ∧
    pyStr .null = "None" ∧
    (∀ n : Int, pyStr (.num n) = toString n) ∧
    (∀ s : String, pyStr (.str s) = s) ∧
    extract_fieldsAssoc (.obj [("data", .arr [.obj [("id", v)]])]) =
      .ok [⟨v, .str "", .str "", .str "", .str ""⟩] :=
  ⟨rfl, rfl, fun _ => rfl, fun _ => rfl, rfl⟩

/-- Claim C8.  A stage receiving zero extracted records performs no write:
`erp_association.main` guards `save_data` behind `if extracted_data:`, and
`erp_Logistics.save_data` (same in `erp_Payment`) writes nothing and
returns `False` when the record is `None` — in both cases a pre-existing
state file is left byte-for-byte unchanged (and a missing file stays
missing). -/
theorem zero_records_leave_state_file_unchanged (fs : FileState) :
    assocPersist [] fs = fs ∧
    (save_dataLogi none fs).1 = fs ∧
    (save_dataLogi none fs).2 = false :=
  ⟨rfl, rfl, rfl⟩

/-- Claim C4, counterexample.  On a non-mapping body (here `[]`) the
Logistics/Payment extractor raises its `ValueError` only *inside* the
`try` block; the function's blanket `except Exception` swallows it and the
public call returns `None` — indistinguishable from the benign
absent-`data` case — so extraction never fails with a `MalformedResponse`
error at its interface. -/
theorem shape_error_swallowed_not_raised :
    extract_fieldsLogiInner (fun _ => .error "ValueError") (.arr []) 1 =
      .error "ValueError: response is not a dict" ∧
    extract_fieldsLogi (fun _ => .error "ValueError") (.arr []) 1 = none ∧
    extract_fieldsLogi (fun _ => .error "ValueError") (.obj [("data", .null)]) 1 = none ∧
    extract_fieldsLogi (fun _ => .error "ValueError") (.obj []) 1 = none :=
  ⟨rfl, rfl, rfl, rfl⟩

/-- Claim C4, amended.  In the Logistics/Payment extractor a non-mapping
body, or a present non-list `data` value, raises an internal
`ValueError` (the `MalformedResponse` case), but the function's blanket
exception handler catches every error and returns `None`, so no failure
surfaces at the public interface; an absent `data` key raises nothing and
yields the empty result `None`. -/
theorem extract_shape_error_behavior (loads : String → Except String JsonVal) (i : Int) :
    (∀ body e, extract_fieldsLogiInner loads body i = .error e →
        extract_fieldsLogi loads body i = none) ∧
    (∀ xs, extract_fieldsLogiInner loads (.arr xs) i =
        .error "ValueError: response is not a dict") ∧
    (∀ n : Int, extract_fieldsLogiInner loads (.num n) i =
        .error "ValueError: response is not a dict") ∧
    (∀ kvs v, dictGet? kvs "data" = some v → (∀ items, v ≠ .arr items) →
        extract_fieldsLogiInner loads (.obj kvs) i =
          .error "ValueError: data is not a list") ∧
    (∀ kvs, dictGet? kvs "data" = none →
        extract_fieldsLogiInner loads (.obj kvs) i = .ok none) := by
  refine ⟨?_, fun _ => rfl, fun _ => rfl, ?_, ?_⟩
  · intro body e h
    simp only [extract_fieldsLogi, extractByIndex, extract_fieldsLogiInner] at h ⊢
    rw [h]
  · intro kvs v h hne
    cases v with
    | arr items => exact absurd rfl (hne items)
    | null => simp [extract_fieldsLogiInner, extractByIndexInner, h]
    | bool b => simp [extract_fieldsLogiInner, extractByIndexInner, h]
    | num n => simp [extract_fieldsLogiInner, extractByIndexInner, h]
    | str s => simp [extract_fieldsLogiInner, extractByIndexInner, h]
    | obj o => simp [extract_fieldsLogiInner, extractByIndexInner, h]
  · intro kvs h
    simp [extract_fieldsLogiInner, extractByIndexInner, h]
    rfl

/-- Claim C4, witness for the amended theorem at a concrete input. -/
theorem extract_shape_error_behavior_witness :
    extract_fieldsLogi (fun _ => .error "E") (.num 3) 1 = none :=
  (extract_shape_error_behavior (fun _ => .error "E") 1).1 (.num 3)
    "ValueError: response is not a dict"
    ((extract_shape_error_behavior (fun _ => .error "E") 1).2.2.1 3)

/-- Claim C5, counterexample.  In `erp_save.execute_request` the test is
`status != 200`, not "status not in the 2xx class": with a fallback
configured, a primary response of `201` (a 2xx success) sends the
identical envelope to the fallback URL — the fallback *is* contacted
despite a 2xx primary status. -/
theorem primary_201_contacts_fallback :
    (fun r => if r.url = "p" then some ⟨201, .null⟩ else some (⟨200, .null⟩ : HttpResp))
        (savePrimaryReq ⟨"p", some "b", "B", [], 15⟩) = some ⟨201, .null⟩ ∧
    (200 ≤ 201 ∧ 201 < 300) ∧
    (execute_requestSave
        (fun r => if r.url = "p" then some ⟨201, .null⟩ else some ⟨200, .null⟩)
        ⟨"p", some "b", "B", [], 15⟩).1 =
      [⟨"p", "B", [], 15⟩, ⟨"b:8081", "B", [], 15⟩] :=
  ⟨rfl, by decide, rfl⟩

/-- Claim C5, amended.  In `oms_status.execute_request` the fallback is
contacted only on a primary status of exactly 502, so any 2xx primary
response leaves the request trace at the primary request alone.  In
`erp_save.execute_request` only a primary status of exactly 200 guarantees
the fallback is never contacted (a 2xx other than 200, with a fallback
configured, does contact it). -/
theorem no_fallback_after_primary_success :
    (∀ (net : Net) (c : StatusConfig) (resp : HttpResp),
        net (statusPrimaryReq c) = some resp → 200 ≤ resp.status → resp.status < 300 →
        (execute_requestStatus net c).1 = [statusPrimaryReq c]) ∧
    (∀ (net : Net) (c : SaveConfig) (resp : HttpResp),
        net (savePrimaryReq c) = some resp → resp.status = 200 →
        (execute_requestSave net c).1 = [savePrimaryReq c]) := by
  constructor
  · intro net c resp h h1 h2
    have h502 : ¬resp.status = 502 := by omega
    simp only [execute_requestStatus, h, if_neg h502]
    split <;> rfl
  · intro net c resp h h200
    simp only [execute_requestSave, h, if_pos h200]

/-- Claim C5, witness for the amended theorem at concrete inputs. -/
theorem no_fallback_after_primary_success_witness :
    (execute_requestStatus (fun _ => some ⟨204, .null⟩) ⟨"p", "f", "B", [], 10⟩).1 =
      [statusPrimaryReq ⟨"p", "f", "B", [], 10⟩] ∧
    (execute_requestSave (fun _ => some ⟨200, .null⟩) ⟨"p", some "b", "B", [], 15⟩).1 =
      [savePrimaryReq ⟨"p", some "b", "B", [], 15⟩] :=
  ⟨no_fallback_after_primary_success.1 _ _ ⟨204, .null⟩ rfl (by decide) (by decide),
   no_fallback_after_primary_success.2 _ _ ⟨200, .null⟩ rfl rfl⟩

/-- Claim C6, counterexample.  In `erp_save.execute_request` a primary
*transport* error is caught by the blanket `except RequestException` and
re-raised as a generic `Exception` without ever posting to the fallback,
even though a fallback is configured; likewise a primary 502 goes straight
to `raise_for_status()`.  In both runs the request trace holds only the
primary request — no fallback attempt exists to receive the envelope. -/
theorem transport_error_no_fallback_attempt :
    execute_requestSave (fun _ => none) ⟨"p", some "b", "B", [], 15⟩ =
      ([⟨"p", "B", [], 15⟩], .error "Exception: 请求失败 (RequestException)") ∧
    (execute_requestSave
        (fun r => if r.url = "p" then some ⟨502, .null⟩ else some ⟨200, .null⟩)
        ⟨"p", some "b", "B", [], 15⟩).1 = [⟨"p", "B", [], 15⟩] :=
  ⟨rfl, rfl⟩

/-- Claim C6, amended.  Whenever one of the executors does attempt the
fallback — in `erp_save` on a primary status outside `{200, 502}` with a
fallback configured, in `oms_status` on a primary 502, in `erp_edit.main`
on any `RequestException` from the primary attempt — the second request
carries a body, headers and timeout identical to the primary attempt's,
with no payload mutation in between.  (`erp_save` does *not* attempt the
fallback on a primary transport error or a 502.) -/
theorem fallback_envelope_identical :
    (∀ (net : Net) (c : SaveConfig) (r1 r2 : Req),
        (execute_requestSave net c).1 = [r1, r2] →
        r2.body = r1.body ∧ r2.headers = r1.headers ∧ r2.timeout = r1.timeout) ∧
    (∀ (net : Net) (c : StatusConfig) (r1 r2 : Req),
        (execute_requestStatus net c).1 = [r1, r2] →
        r2.body = r1.body ∧ r2.headers = r1.headers ∧ r2.timeout = r1.timeout) ∧
    (∀ (net : Net) (u1 u2 : String) (hs : List (String × String)) (p : String)
        (r1 r2 : Req),
        (editFailover net u1 u2 hs p).1 = [r1, r2] →
        r2.body = r1.body ∧ r2.headers = r1.headers ∧ r2.timeout = r1.timeout) := by
  refine ⟨?_, ?_, ?_⟩
  · intro net c r1 r2 h
    simp only [execute_requestSave] at h
    rcases hn : net (savePrimaryReq c) with _ | resp <;> simp only [hn] at h
    · simp at h
    · by_cases h200 : resp.status = 200
      · simp [h200] at h
      · simp only [if_neg h200] at h
        rcases hfb : c.fallback_base_url with _ | base <;> simp only [hfb] at h
        · split at h <;> simp at h
        · by_cases h502 : resp.status = 502
          · simp only [if_pos h502] at h
            split at h <;> simp at h
          · simp only [if_neg h502] at h
            rcases hn2 : net ⟨base ++ ":8081", c.payloadData, c.headers, c.timeout⟩
                with _ | fresp <;> simp only [hn2] at h
            · simp at h
              obtain ⟨h1, h2⟩ := h
              subst h1; subst h2
              exact ⟨rfl, rfl, rfl⟩
            · split at h <;>
                · simp at h
                  obtain ⟨h1, h2⟩ := h
                  subst h1; subst h2
                  exact ⟨rfl, rfl, rfl⟩
  · intro net c r1 r2 h
    simp only [execute_requestStatus] at h
    rcases hn : net (statusPrimaryReq c) with _ | resp <;> simp only [hn] at h
    · simp at h
    · by_cases h502 : resp.status = 502
      · simp only [if_pos h502] at h
        rcases hn2 : net ⟨c.fallback_url, c.payloadData, c.headers, c.timeout⟩
            with _ | fresp <;> simp only [hn2] at h
        · simp at h
          obtain ⟨h1, h2⟩ := h
          subst h1; subst h2
          exact ⟨rfl, rfl, rfl⟩
        · split at h <;>
            · simp at h
              obtain ⟨h1, h2⟩ := h
              subst h1; subst h2
              exact ⟨rfl, rfl, rfl⟩
      · simp only [if_neg h502] at h
        split at h <;> simp at h
  · intro net u1 u2 hs p r1 r2 h
    simp only [editFailover] at h
    rcases hr : send_requestEdit net u1 hs p with e | u <;> simp only [hr] at h
    · simp at h
      obtain ⟨h1, h2⟩ := h
      subst h1; subst h2
      exact ⟨rfl, rfl, rfl⟩
    · simp at h

/-- Claim C6, witness for the amended theorem: a primary 503 in `erp_save`
triggers the fallback, whose envelope equals the primary's. -/
theorem fallback_envelope_identical_witness :
    (⟨"b:8081", "B", [], 15⟩ : Req).body = (⟨"p", "B", [], 15⟩ : Req).body ∧
    (⟨"b:8081", "B", [], 15⟩ : Req).headers = (⟨"p", "B", [], 15⟩ : Req).headers ∧
    (⟨"b:8081", "B", [], 15⟩ : Req).timeout = (⟨"p", "B", [], 15⟩ : Req).timeout :=
  fallback_envelope_identical.1
    (fun r => if r.url = "p" then some ⟨503, .null⟩ else some ⟨200, .null⟩)
    ⟨"p", some "b", "B", [], 15⟩ ⟨"p", "B", [], 15⟩ ⟨"b:8081", "B", [], 15⟩ (by rfl)

/-- Test for a mapping-typed JSON value (`isinstance(item, dict)`). -/
def isDict : JsonVal → Bool
  | .obj _ => true
  | _ => false

/-- The ByIndex loop builds exactly one record per mapping-typed element,
so the built list's length is the count of mapping-typed elements. -/
theorem builtRecords_length {α : Type} (proj : List (String × JsonVal) → α)
    (items : List JsonVal) :
    (builtRecords proj items).length = items.countP (fun it => isDict it) := by
  induction items with
  | nil => rfl
  | cons it rest ih =>
    cases it <;>
      simp [builtRecords, List.filterMap_cons, List.countP_cons, isDict] at ih ⊢ <;>
      omega

/-- Claim C7.  For a decoded mapping body whose `data` key holds a list of
`items`, the ByIndex extractor (Logistics variant; Payment is the same code
up to field names) returns `None` exactly when the selection index lies
outside `[1, N]` with `N` the number of mapping-typed elements of the list,
and otherwise returns the `i`-th (1-based) built record — `builtRecords`
being the in-order projection of exactly the mapping-typed elements, its
`(i-1)`-th entry is the `i`-th such element's projection. -/
theorem byindex_selection_spec (loads : String → Except String JsonVal)
    (kvs : List (String × JsonVal)) (items : List JsonVal) (i : Int)
    (h : dictGet? kvs "data" = some (.arr items)) :
    (builtRecords projLogi items).length = items.countP (fun it => isDict it) ∧
    extract_fieldsLogi loads (.obj kvs) i =
      (if 1 ≤ i ∧ i ≤ (items.countP (fun it => isDict it) : Int)
       then (builtRecords projLogi items).get? (i - 1).toNat
       else none) := by
  refine ⟨builtRecords_length _ _, ?_⟩
  simp only [extract_fieldsLogi, extractByIndex, extract_fieldsLogiInner,
    extractByIndexInner, pure_bind]
  simp only [h, pure, Except.pure]
  unfold byIndexSelect
  rw [builtRecords_length]
  exact if_congr (by omega) rfl rfl

/-- Claim C7, witness: index 2 selects the projection of the second
mapping-typed element, skipping the interleaved string element. -/
theorem byindex_selection_spec_witness :
    extract_fieldsLogi (fun _ => .error "E")
        (.obj [("data", .arr [.obj [("item", .str "a"), ("name", .str "b")], .str "skip",
                              .obj [("item", .str "c")]])]) 2 =
      some ⟨"c", ""⟩ := by
  have h := byindex_selection_spec (fun _ => .error "E")
      [("data", .arr [.obj [("item", .str "a"), ("name", .str "b")], .str "skip",
                      .obj [("item", .str "c")]])]
      [.obj [("item", .str "a"), ("name", .str "b")], .str "skip",
       .obj [("item", .str "c")]]
      2 rfl
  rw [h.2]
  rfl

/-- No two elements of the list are Python-`==`-equal (the invariant a
Python `set` maintains for its members). -/
def NoPyDup (ids : List JsonVal) : Prop :=
  ids.Pairwise (fun a b => pyEqPrim a b = false)

/-- Reduction of `Except` bind on a success value. -/
theorem exceptBindOk {α β : Type} (a : α) (f : α → Except String β) :
    (Except.ok a >>= f) = f a := rfl

/-- Reduction of `Except` bind on an error value. -/
theorem exceptBindErr {α β : Type} (e : String) (f : α → Except String β) :
    ((Except.error e : Except String α) >>= f) = .error e := rfl

/-- `set.add` keeps the membership invariant: the inserted value is only
appended when no `==`-equal element is already present. -/
theorem setAdd_preserves {ids ids' : List JsonVal} {v : JsonVal}
    (hP : NoPyDup ids) (h : setAdd ids v = .ok ids') : NoPyDup ids' := by
  unfold setAdd at h
  by_cases hh : pyHashable v = true
  · rw [if_pos hh] at h
    injection h with h
    subst h
    by_cases hany : ids.any (fun x => pyEqPrim x v) = true
    · rw [if_pos hany]; exact hP
    · rw [if_neg hany]
      rw [NoPyDup, List.pairwise_append]
      refine ⟨hP, List.pairwise_singleton _ _, ?_⟩
      intro a ha b hb
      rcases List.mem_singleton.mp hb with rfl
      exact Bool.eq_false_iff.mpr (fun hx => hany (List.any_eq_true.mpr ⟨a, ha, hx⟩))
  · rw [if_neg hh] at h
    exact absurd h (by simp)

/-- An `Except`-valued left fold preserves any invariant its step
function preserves. -/
theorem foldlM_except_preserves {α β : Type} {P : β → Prop}
    (f : β → α → Except String β)
    (hf : ∀ b a b', P b → f b a = .ok b' → P b') :
    ∀ (l : List α) (b b' : β), P b → l.foldlM f b = .ok b' → P b' := by
  intro l
  induction l with
  | nil =>
    intro b b' hP h
    simp only [List.foldlM_nil] at h
    injection h with h
    subst h
    exact hP
  | cons a rest ih =>
    intro b b' hP h
    simp only [List.foldlM_cons] at h
    rcases hfa : f b a with e | b1 <;> rw [hfa] at h
    · rw [exceptBindErr] at h
      exact absurd h (by simp)
    · rw [exceptBindOk] at h
      exact ih b1 b' (hf b a b1 hP hfa) h

/-- The innermost goods step preserves the set invariant. -/
theorem addGoods_preserves {ids ids' : List JsonVal} {goods : JsonVal}
    (hP : NoPyDup ids) (h : addGoods ids goods = .ok ids') : NoPyDup ids' := by
  unfold addGoods at h
  rcases hc : pyContains "fulfillmentOrderId" goods with e | b <;> rw [hc] at h
  · rw [exceptBindErr] at h
    exact absurd h (by simp)
  · rw [exceptBindOk] at h
    cases b with
    | false =>
      simp only [Bool.false_eq_true, if_false] at h
      injection h with h
      subst h
      exact hP
    | true =>
      simp only [if_true] at h
      rcases hv : pySubscript "fulfillmentOrderId" goods with e | v <;> rw [hv] at h
      · rw [exceptBindErr] at h
        exact absurd h (by simp)
      · rw [exceptBindOk] at h
        exact setAdd_preserves hP h

/-- The per-afterSaleItem step preserves the set invariant. -/
theorem addItem_preserves {ids ids' : List JsonVal} {item : JsonVal}
    (hP : NoPyDup ids) (h : addItem ids item = .ok ids') : NoPyDup ids' := by
  unfold addItem at h
  cases item <;> simp only at h <;>
    first
    | · rw [exceptBindErr] at h
        exact absurd h (by simp)
    | · rcases hg : pyIter (dictGetD _ "reissueGoodsInfoList" (.arr [])) with e | gl <;>
          rw [hg] at h
        · rw [exceptBindErr] at h
          exact absurd h (by simp)
        · rw [exceptBindOk] at h
          exact foldlM_except_preserves addGoods
            (fun b a b' => addGoods_preserves) gl ids ids' hP h

/-- The per-order step preserves the set invariant. -/
theorem addOrder_preserves {ids ids' : List JsonVal} {order : JsonVal}
    (hP : NoPyDup ids) (h : addOrder ids order = .ok ids') : NoPyDup ids' := by
  unfold addOrder at h
  rcases hc : pyContains "fulfillmentOrderId" order with e | b <;>
    simp only [hc, exceptBindErr, exceptBindOk] at h
  · exact absurd h (by simp)
  · cases b with
    | false =>
      simp only [Bool.false_eq_true, if_false, pure_bind] at h
      rcases hoi : orderItems order with e | its <;>
        simp only [hoi, exceptBindErr, exceptBindOk] at h
      · exact absurd h (by simp)
      · exact foldlM_except_preserves addItem
          (fun b a b' => addItem_preserves) its ids ids' hP h
    | true =>
      simp only [if_true] at h
      rcases hv : pySubscript "fulfillmentOrderId" order with e | v <;>
        simp only [hv, exceptBindErr, exceptBindOk] at h
      · exact absurd h (by simp)
      · rcases hs : setAdd ids v with e | ids1 <;>
          simp only [hs, exceptBindErr, exceptBindOk] at h
        · exact absurd h (by simp)
        · have hP1 := setAdd_preserves hP hs
          rcases hoi : orderItems order with e | its <;>
            simp only [hoi, exceptBindErr, exceptBindOk] at h
          · exact absurd h (by simp)
          · exact foldlM_except_preserves addItem
              (fun b a b' => addItem_preserves) its ids1 ids' hP1 h

/-- Claim C9.  Whenever `oms_status.extract_fulfillment_ids` returns a
list (no dynamic type error was raised), no two of its elements are
Python-`==`-equal: every `fulfillmentOrderId` value appears at most once,
however often it occurs across orders and nested `reissueGoodsInfoList`
entries, because each insertion goes through a `set`.  The returned order
is `list(ids)` of that set, i.e. set iteration order, not response order
(the model fixes first-insertion order; the theorem does not depend on
it). -/
theorem fulfillment_ids_pairwise_distinct (data : JsonVal) (ids : List JsonVal)
    (h : extract_fulfillment_ids data = .ok ids) :
    ids.Pairwise (fun a b => pyEqPrim a b = false) := by
  unfold extract_fulfillment_ids at h
  rcases ho : topOrders data with e | orders <;>
    simp only [ho, exceptBindErr, exceptBindOk] at h
  · exact absurd h (by simp)
  · exact foldlM_except_preserves addOrder (fun b a b' => addOrder_preserves)
      orders [] ids List.Pairwise.nil h

/-- Claim C9, witness: the id `F1` occurs in two orders and in a nested
reissue entry, yet appears once in the result. -/
theorem fulfillment_ids_pairwise_distinct_witness :
    extract_fulfillment_ids
        (.obj [("data", .arr
          [.obj [("fulfillmentOrderId", .str "F1"),
                 ("afterSaleItemList", .arr
                   [.obj [("reissueGoodsInfoList", .arr
                     [.obj [("fulfillmentOrderId", .str "F1")],
                      .obj [("fulfillmentOrderId", .str "F2")]])]])],
           .obj [("fulfillmentOrderId", .str "F1")]])]) =
      .ok [.str "F1", .str "F2"] ∧
    List.Pairwise (fun a b => pyEqPrim a b = false) [.str "F1", .str "F2"] :=
  ⟨rfl, fulfillment_ids_pairwise_distinct
    (.obj [("data", .arr
      [.obj [("fulfillmentOrderId", .str "F1"),
             ("afterSaleItemList", .arr
               [.obj [("reissueGoodsInfoList", .arr
                 [.obj [("fulfillmentOrderId", .str "F1")],
                  .obj [("fulfillmentOrderId", .str "F2")]])]])],
       .obj [("fulfillmentOrderId", .str "F1")]])])
    [.str "F1", .str "F2"] rfl⟩

/-- Claim C10.  The public ByIndex extractors are total: on every body
(of any JSON shape) and every index they return a record or `None`, and
whenever the inner try-block raises, the blanket handler maps the error to
`None` — no exception escapes the public interface. -/
theorem byindex_extract_never_raises (loads : String → Except String JsonVal)
    (body : JsonVal) (i : Int) :
    (extract_fieldsLogi loads body i = none ∨
      ∃ r, extract_fieldsLogi loads body i = some r) ∧
    (∀ e, extract_fieldsLogiInner loads body i = .error e →
      extract_fieldsLogi loads body i = none) ∧
    (extract_fieldsPay loads body i = none ∨
      ∃ r, extract_fieldsPay loads body i = some r) ∧
    (∀ e, extract_fieldsPayInner loads body i = .error e →
      extract_fieldsPay loads body i = none) := by
  refine ⟨?_, ?_, ?_, ?_⟩
  · rcases hr : extract_fieldsLogi loads body i with _ | r
    · exact Or.inl rfl
    · exact Or.inr ⟨r, rfl⟩
  · intro e h
    simp only [extract_fieldsLogi, extractByIndex, extract_fieldsLogiInner] at h ⊢
    rw [h]
  · rcases hr : extract_fieldsPay loads body i with _ | r
    · exact Or.inl rfl
    · exact Or.inr ⟨r, rfl⟩
  · intro e h
    simp only [extract_fieldsPay, extractByIndex, extract_fieldsPayInner] at h ⊢
    rw [h]

/-- Claim C10, witness: a boolean body makes the inner block raise, and the
public extractor returns `None`. -/
theorem byindex_extract_never_raises_witness :
    extract_fieldsPay (fun _ => .error "E") (.bool true) 1 = none :=
  (byindex_extract_never_raises (fun _ => .error "E") (.bool true) 1).2.2.2
    "ValueError: response is not a dict" rfl
